import Mathlib

/-!
Shallow embedding of the attestation-validation core of the `lighthouse`
repository (src/lighthouse/state/validation/attestation_validation.rs),
together with theorems settling the stated claims about it.

All machine integers of the source (u64 slots, u8 cycle length, u16 shard id,
usize lengths) are embedded as `Nat`.  The only arithmetic the source performs
on them is comparison, `saturating_sub` (which is exactly `Nat` subtraction)
and the addition `u64::from(cycle_length) + 1`; since `cycle_length` is a u8
(at most 255) that addition can never overflow a u64, so the `Nat` embedding
agrees with the machine semantics on every representable input and no explicit
`% 2 ^ 64` reduction is needed.
-/

/-- A 256-bit hash, embedded as its byte sequence. -/
abbrev Hash256 := List Nat

/-- The byte-packed bitfield type (utils::types::Bitfield).  The validator in
src only ever asks it for its byte count via `num_bytes`, so the embedding
carries the underlying bytes. -/
structure Bitfield where
  bytes : List Nat
deriving DecidableEq, Repr

/-- Embeds `Bitfield::num_bytes`: the number of bytes in the packed field. -/
def Bitfield.num_bytes (b : Bitfield) : Nat :=
  b.bytes.length

/-- The attestation record under validation, with the fields the validator
reads (slot, shard_id, justified_slot, oblique_parent_hashes,
shard_block_hash, attester_bitfield, aggregate_signature). -/
structure AttestationRecord where
  slot : Nat
  shard_id : Nat
  justified_slot : Nat
  oblique_parent_hashes : List Hash256
  shard_block_hash : Hash256
  attester_bitfield : Bitfield
  aggregate_signature : List Nat
deriving DecidableEq, Repr

/-- Error type of the parent-hash resolver
(super::attestation_parent_hashes::ParentHashesError). -/
inductive ParentHashesError where
  | BadCurrentHashes
  | BadObliqueHashes
  | SlotTooLow
  | SlotTooHigh
  | IntWrapping
deriving DecidableEq, Repr

/-- Embeds `enum AttestationValidationError` from
attestation_validation.rs lines 21-35. -/
inductive AttestationValidationError where
  | SlotTooHigh
  | SlotTooLow
  | JustifiedSlotTooHigh
  | TooManyObliqueHashes
  | BadCurrentHashes
  | BadObliqueHashes
  | BadAttesterMap
  | IntWrapping
  | IncorrectBitField
  | NoSignatures
  | NonZeroTrailingBits
  | AggregateSignatureFail
deriving DecidableEq, Repr

/-- Embeds `type AttesterMap = HashMap<(Slot, ShardId), Vec<usize>>` as an
association list from (slot, shard_id) keys to committees; `HashMap::get`
becomes `List.lookup`. -/
abbrev AttesterMap := List ((Nat × Nat) × List Nat)

/-- Embeds `fn bytes_for_bits(bits: usize) -> usize`
(attestation_validation.rs lines 41-43): `(bits.saturating_sub(1) / 8) + 1`.
`Nat` subtraction is saturating subtraction. -/
def bytes_for_bits (bits : Nat) : Nat :=
  (bits - 1) / 8 + 1

/-- Embeds `impl From<ParentHashesError> for AttestationValidationError`
(attestation_validation.rs lines 154-169): each resolver error kind is mapped
to the validation error kind of the same name. -/
def fromParentHashesError : ParentHashesError → AttestationValidationError
  | ParentHashesError.BadCurrentHashes => AttestationValidationError.BadCurrentHashes
  | ParentHashesError.BadObliqueHashes => AttestationValidationError.BadObliqueHashes
  | ParentHashesError.SlotTooLow => AttestationValidationError.SlotTooLow
  | ParentHashesError.SlotTooHigh => AttestationValidationError.SlotTooHigh
  | ParentHashesError.IntWrapping => AttestationValidationError.IntWrapping

/-- Modelled from the spec: the body of `attestation_parent_hashes` (the
ParentHashResolver of spec section 4.2) is code of this repository that is
not under src; only its signature, its error type and its caller are.
Following the words of section 4.2: the canonical window is the
`cycle_length` parent hashes preceding the attestation slot;
`known_parent_hashes` must contain exactly the expected window length (else
`BadCurrentHashes`); the oblique count must not exceed the window (else
`BadObliqueHashes`); the slot offset relative to `block_slot` must stay
within `[0, cycle_length]` (else `SlotTooLow` / `SlotTooHigh`); the oblique
hashes are then spliced over the tail of the window.  All arithmetic here is
`Nat` (saturating), so the `IntWrapping` case of the error type is never
produced by the model. -/
def attestation_parent_hashes (cycle_length : Nat) (block_slot : Nat)
    (attestation_slot : Nat) (known_parent_hashes : List Hash256)
    (oblique_parent_hashes : List Hash256) :
    Except ParentHashesError (List Hash256) :=
  if attestation_slot > block_slot then
    Except.error ParentHashesError.SlotTooHigh
  else if block_slot - attestation_slot > cycle_length then
    Except.error ParentHashesError.SlotTooLow
  else if known_parent_hashes.length ≠ cycle_length then
    Except.error ParentHashesError.BadCurrentHashes
  else if oblique_parent_hashes.length > known_parent_hashes.length then
    Except.error ParentHashesError.BadObliqueHashes
  else
    Except.ok
      (known_parent_hashes.take
          (known_parent_hashes.length - oblique_parent_hashes.length)
        ++ oblique_parent_hashes)

/-- Modelled from the spec: `canonical_hash` (utils::hash) is code of this
repository that is not under src; the spec (section 6) treats the canonical
hash function as an external collaborator.  It is modelled as a stand-in
digest that is a function of exactly the serialized bytes; no claim settled
here depends on any property of the hash beyond determinism. -/
def canonical_hash (bytes : List Nat) : List Nat :=
  bytes

/-- Modelled from the spec: fixed-width encoding of a u64 as 8 bytes,
standing in for the `SszStream::append` encoding of a u64, which is code of
this repository not under src (spec section 4.3: slot and justified_slot are
serialized as 8 bytes each). -/
def encode_u64 (n : Nat) : List Nat :=
  (List.range 8).map (fun i => n / 256 ^ i % 256)

/-- Modelled from the spec: fixed-width encoding of a u16 as 2 bytes,
standing in for the `SszStream::append` encoding of a u16 (spec section 4.3:
shard_id is serialized as 2 bytes). -/
def encode_u16 (n : Nat) : List Nat :=
  [n % 256, n / 256 % 256]

/-- Embeds `fn generate_signed_message` (attestation_validation.rs lines
126-152): serialize slot, each parent hash raw, shard_id, shard_block_hash
and justified_slot into one byte string and reduce it through the canonical
hash.  The SszStream appends are modelled by the fixed-width encoders above,
since the ssz module is code of this repository not under src. -/
def generate_signed_message (slot : Nat) (parent_hashes : List Hash256)
    (shard_id : Nat) (shard_block_hash : Hash256) (justified_slot : Nat) :
    List Nat :=
  canonical_hash
    (encode_u64 slot
      ++ parent_hashes.foldl (fun acc h => acc ++ h) []
      ++ encode_u16 shard_id
      ++ shard_block_hash
      ++ encode_u64 justified_slot)

/-- Embeds the final stage of `validate_attestation`
(attestation_validation.rs lines 97-112): the `let signed_message = { ... }`
block, in which `attestation_parent_hashes` is invoked and any of its errors
is propagated by the `?` operator through the `From` impl, a success result
is fed to `generate_signed_message`, and then the function returns
`Ok(false)` without ever using the signed message. -/
def resolve_and_sign (a : AttestationRecord) (block_slot : Nat)
    (cycle_length : Nat) (known_parent_hashes : List Hash256) :
    Except AttestationValidationError Bool :=
  match attestation_parent_hashes cycle_length block_slot a.slot
      known_parent_hashes a.oblique_parent_hashes with
  | Except.error e => Except.error (fromParentHashesError e)
  | Except.ok parent_hashes =>
    let _signed_message := generate_signed_message a.slot parent_hashes
        a.shard_id a.shard_block_hash a.justified_slot
    Except.ok false

/-- Embeds the middle of `validate_attestation` after the two slot checks
(attestation_validation.rs lines 72-112): the justified-slot check, the
oblique-hash-count check, the attester-map lookup, the bitfield-length check,
and then the final `resolve_and_sign` stage.  The unused storage handle
parameter of the source (`block_store`, never read by the function body) is
dropped. -/
def validate_after_slot_checks (a : AttestationRecord) (block_slot : Nat)
    (cycle_length : Nat) (known_last_justified_slot : Nat)
    (known_parent_hashes : List Hash256) (attester_map : AttesterMap) :
    Except AttestationValidationError Bool :=
  if a.justified_slot > known_last_justified_slot then
    Except.error AttestationValidationError.JustifiedSlotTooHigh
  else if a.oblique_parent_hashes.length > cycle_length then
    Except.error AttestationValidationError.TooManyObliqueHashes
  else
    match attester_map.lookup (a.slot, a.shard_id) with
    | none => Except.error AttestationValidationError.BadAttesterMap
    | some attestation_indices =>
      if a.attester_bitfield.num_bytes ≠ bytes_for_bits attestation_indices.length then
        Except.error AttestationValidationError.IncorrectBitField
      else
        resolve_and_sign a block_slot cycle_length known_parent_hashes

/-- Embeds `pub fn validate_attestation` (attestation_validation.rs lines
45-113): the fail-fast pipeline begins with the two slot checks
(`SlotTooHigh` when `a.slot > block_slot`, `SlotTooLow` when
`a.slot < block_slot.saturating_sub(cycle_length + 1)`) and then continues
with `validate_after_slot_checks`. -/
def validate_attestation (a : AttestationRecord) (block_slot : Nat)
    (cycle_length : Nat) (known_last_justified_slot : Nat)
    (known_parent_hashes : List Hash256) (attester_map : AttesterMap) :
    Except AttestationValidationError Bool :=
  if a.slot > block_slot then
    Except.error AttestationValidationError.SlotTooHigh
  else if a.slot < block_slot - (cycle_length + 1) then
    Except.error AttestationValidationError.SlotTooLow
  else
    validate_after_slot_checks a block_slot cycle_length
      known_last_justified_slot known_parent_hashes attester_map

/-- The `From` impl can only produce the five error kinds that exist on the
resolver side; helper lemma shared by several claim proofs. -/
theorem fromParentHashesError_kinds (e : ParentHashesError) :
    fromParentHashesError e = AttestationValidationError.BadCurrentHashes ∨
    fromParentHashesError e = AttestationValidationError.BadObliqueHashes ∨
    fromParentHashesError e = AttestationValidationError.SlotTooLow ∨
    fromParentHashesError e = AttestationValidationError.SlotTooHigh ∨
    fromParentHashesError e = AttestationValidationError.IntWrapping := by
  cases e <;> simp [fromParentHashesError]

/-- The final stage either succeeds with `false` or propagates a resolver
error through the `From` impl; helper lemma shared by several claim proofs. -/
theorem resolve_and_sign_outcomes (a : AttestationRecord) (block_slot : Nat)
    (cycle_length : Nat) (known_parent_hashes : List Hash256) :
    resolve_and_sign a block_slot cycle_length known_parent_hashes
      = Except.ok false ∨
    ∃ e : ParentHashesError,
      resolve_and_sign a block_slot cycle_length known_parent_hashes
        = Except.error (fromParentHashesError e) := by
  unfold resolve_and_sign
  cases attestation_parent_hashes cycle_length block_slot a.slot
      known_parent_hashes a.oblique_parent_hashes with
  | error e => exact Or.inr ⟨e, rfl⟩
  | ok parent_hashes => exact Or.inl rfl

/-- Every outcome of `validate_attestation` is either `Ok(false)` or one of
the nine error kinds its branches can actually produce; helper lemma shared
by several claim proofs. -/
theorem validate_attestation_outcomes (a : AttestationRecord)
    (block_slot cycle_length known_last_justified_slot : Nat)
    (known_parent_hashes : List Hash256) (attester_map : AttesterMap) :
    validate_attestation a block_slot cycle_length known_last_justified_slot
      known_parent_hashes attester_map = Except.ok false ∨
    ∃ err, validate_attestation a block_slot cycle_length
        known_last_justified_slot known_parent_hashes attester_map
        = Except.error err ∧
      (err = AttestationValidationError.SlotTooHigh ∨
       err = AttestationValidationError.SlotTooLow ∨
       err = AttestationValidationError.JustifiedSlotTooHigh ∨
       err = AttestationValidationError.TooManyObliqueHashes ∨
       err = AttestationValidationError.BadAttesterMap ∨
       err = AttestationValidationError.IncorrectBitField ∨
       err = AttestationValidationError.BadCurrentHashes ∨
       err = AttestationValidationError.BadObliqueHashes ∨
       err = AttestationValidationError.IntWrapping) := by
  unfold validate_attestation validate_after_slot_checks
  split
  · exact Or.inr ⟨_, rfl, by simp⟩
  · split
    · exact Or.inr ⟨_, rfl, by simp⟩
    · split
      · exact Or.inr ⟨_, rfl, by simp⟩
      · split
        · exact Or.inr ⟨_, rfl, by simp⟩
        · split
          · exact Or.inr ⟨_, rfl, by simp⟩
          · split
            · exact Or.inr ⟨_, rfl, by simp⟩
            · rcases resolve_and_sign_outcomes a block_slot cycle_length
                  known_parent_hashes with h | ⟨e, h⟩
              · exact Or.inl h
              · refine Or.inr ⟨_, h, ?_⟩
                rcases fromParentHashesError_kinds e with h5 | h5 | h5 | h5 | h5 <;>
                  rw [h5] <;> simp

/-- Claim C5: for every record with record.slot > block_slot,
validate_attestation returns SlotTooHigh, independent of all other fields of
the record and of the context (all of which are universally quantified
here). -/
theorem C5_slot_too_high (a : AttestationRecord)
    (block_slot cycle_length known_last_justified_slot : Nat)
    (known_parent_hashes : List Hash256) (attester_map : AttesterMap)
    (h : a.slot > block_slot) :
    validate_attestation a block_slot cycle_length known_last_justified_slot
      known_parent_hashes attester_map
      = Except.error AttestationValidationError.SlotTooHigh := by
  unfold validate_attestation
  rw [if_pos h]

/-- Witness for C5 at a concrete input: slot 11 against block slot 10. -/
theorem C5_slot_too_high_witness :
    validate_attestation ⟨11, 1, 0, [], [], ⟨[0]⟩, []⟩ 10 5 0 [] []
      = Except.error AttestationValidationError.SlotTooHigh :=
  C5_slot_too_high ⟨11, 1, 0, [], [], ⟨[0]⟩, []⟩ 10 5 0 [] [] (by decide)

/-- Claim C4: for every record with record.slot ≤ block_slot, a slot strictly
below block_slot − (cycle_length + 1) (saturating subtraction, which is Nat
subtraction) yields SlotTooLow, while at the exact boundary
record.slot = block_slot − (cycle_length + 1) the slot-lower-bound check
passes, i.e. validation proceeds to the checks after the two slot checks. -/
theorem C4_slot_too_low_boundary (a : AttestationRecord)
    (block_slot cycle_length known_last_justified_slot : Nat)
    (known_parent_hashes : List Hash256) (attester_map : AttesterMap)
    (h : a.slot ≤ block_slot) :
    (a.slot < block_slot - (cycle_length + 1) →
      validate_attestation a block_slot cycle_length known_last_justified_slot
        known_parent_hashes attester_map
        = Except.error AttestationValidationError.SlotTooLow) ∧
    (a.slot = block_slot - (cycle_length + 1) →
      validate_attestation a block_slot cycle_length known_last_justified_slot
        known_parent_hashes attester_map
        = validate_after_slot_checks a block_slot cycle_length
            known_last_justified_slot known_parent_hashes attester_map) := by
  constructor
  · intro hlt
    unfold validate_attestation
    rw [if_neg (by omega), if_pos hlt]
  · intro heq
    unfold validate_attestation
    rw [if_neg (by omega), if_neg (by omega)]

/-- Witness for C4 at the concrete inputs of the spec scenario: block slot
10 and cycle length 5, so the minimum accepted slot is 4; slot 3 is
SlotTooLow and slot 4 passes both slot checks. -/
theorem C4_slot_too_low_boundary_witness :
    validate_attestation ⟨3, 1, 0, [], [], ⟨[0]⟩, []⟩ 10 5 0 [] []
      = Except.error AttestationValidationError.SlotTooLow ∧
    validate_attestation ⟨4, 1, 0, [], [], ⟨[0]⟩, []⟩ 10 5 0 [] []
      = validate_after_slot_checks ⟨4, 1, 0, [], [], ⟨[0]⟩, []⟩ 10 5 0 [] [] :=
  ⟨(C4_slot_too_low_boundary ⟨3, 1, 0, [], [], ⟨[0]⟩, []⟩ 10 5 0 [] []
      (by decide)).1 (by decide),
   (C4_slot_too_low_boundary ⟨4, 1, 0, [], [], ⟨[0]⟩, []⟩ 10 5 0 [] []
      (by decide)).2 (by decide)⟩

/-- Claim C6: for every record passing checks 1-3 (both slot checks and the
justified-slot check), an oblique-hash count equal to cycle_length passes the
count check, so the result is never TooManyObliqueHashes, while a count of
cycle_length + 1 yields TooManyObliqueHashes. -/
theorem C6_oblique_hash_count (a : AttestationRecord)
    (block_slot cycle_length known_last_justified_slot : Nat)
    (known_parent_hashes : List Hash256) (attester_map : AttesterMap)
    (h1 : a.slot ≤ block_slot)
    (h2 : block_slot - (cycle_length + 1) ≤ a.slot)
    (h3 : a.justified_slot ≤ known_last_justified_slot) :
    (a.oblique_parent_hashes.length = cycle_length →
      validate_attestation a block_slot cycle_length known_last_justified_slot
        known_parent_hashes attester_map
        ≠ Except.error AttestationValidationError.TooManyObliqueHashes) ∧
    (a.oblique_parent_hashes.length = cycle_length + 1 →
      validate_attestation a block_slot cycle_length known_last_justified_slot
        known_parent_hashes attester_map
        = Except.error AttestationValidationError.TooManyObliqueHashes) := by
  constructor
  · intro hlen
    unfold validate_attestation validate_after_slot_checks
    rw [if_neg (by omega), if_neg (by omega), if_neg (by omega),
      if_neg (by omega)]
    cases hm : List.lookup (a.slot, a.shard_id) attester_map with
    | none => simp
    | some attestation_indices =>
      simp only
      split
      · simp
      · rcases resolve_and_sign_outcomes a block_slot cycle_length
            known_parent_hashes with h | ⟨e, h⟩
        · rw [h]; simp
        · rw [h]
          rcases fromParentHashesError_kinds e with h5 | h5 | h5 | h5 | h5 <;>
            rw [h5] <;> simp
  · intro hlen
    unfold validate_attestation validate_after_slot_checks
    rw [if_neg (by omega), if_neg (by omega), if_neg (by omega),
      if_pos (by omega)]

/-- Witness for C6 at concrete inputs: cycle length 5 with five oblique
hashes passes the count check, six oblique hashes fail it. -/
theorem C6_oblique_hash_count_witness :
    validate_attestation ⟨10, 1, 0, [[], [], [], [], []], [], ⟨[0]⟩, []⟩
        10 5 0 [] []
      ≠ Except.error AttestationValidationError.TooManyObliqueHashes ∧
    validate_attestation ⟨10, 1, 0, [[], [], [], [], [], []], [], ⟨[0]⟩, []⟩
        10 5 0 [] []
      = Except.error AttestationValidationError.TooManyObliqueHashes :=
  ⟨(C6_oblique_hash_count ⟨10, 1, 0, [[], [], [], [], []], [], ⟨[0]⟩, []⟩
      10 5 0 [] [] (by decide) (by decide) (by decide)).1 (by decide),
   (C6_oblique_hash_count ⟨10, 1, 0, [[], [], [], [], [], []], [], ⟨[0]⟩, []⟩
      10 5 0 [] [] (by decide) (by decide) (by decide)).2 (by decide)⟩

/-- Counterexample to claim C3 as stated: with the empty committee the
attester map returns for key (10, 1), a zero-byte bitfield has exactly
ceil(0/8) = (0+7)/8 = 0 bytes, so the claim says the length check passes,
yet validate_attestation rejects with IncorrectBitField because
bytes_for_bits 0 = 1. -/
theorem C3_bitfield_length_counterexample :
    (Bitfield.mk []).num_bytes = (([] : List Nat).length + 7) / 8 ∧
    validate_attestation ⟨10, 1, 0, [], [], ⟨[]⟩, []⟩ 10 5 0
        [[], [], [], [], []] [((10, 1), [])]
      = Except.error AttestationValidationError.IncorrectBitField := by
  constructor
  · decide
  · rfl

/-- Claim C3 (amended to non-empty committees): for every committee the
attester map lookup returns that has at least one member, and every record
passing checks 1-5, the bitfield-length check fails with IncorrectBitField
exactly when the bitfield byte count differs from ceil(committee.len()/8) =
(committee.len()+7)/8; with the exact length the result is never
IncorrectBitField. -/
theorem C3_bitfield_length (a : AttestationRecord)
    (block_slot cycle_length known_last_justified_slot : Nat)
    (known_parent_hashes : List Hash256) (attester_map : AttesterMap)
    (attestation_indices : List Nat)
    (h1 : a.slot ≤ block_slot)
    (h2 : block_slot - (cycle_length + 1) ≤ a.slot)
    (h3 : a.justified_slot ≤ known_last_justified_slot)
    (h4 : a.oblique_parent_hashes.length ≤ cycle_length)
    (h5 : attester_map.lookup (a.slot, a.shard_id) = some attestation_indices)
    (h6 : attestation_indices ≠ []) :
    validate_attestation a block_slot cycle_length known_last_justified_slot
      known_parent_hashes attester_map
      = Except.error AttestationValidationError.IncorrectBitField ↔
    a.attester_bitfield.num_bytes ≠ (attestation_indices.length + 7) / 8 := by
  have hlen : 1 ≤ attestation_indices.length := by
    cases attestation_indices with
    | nil => exact absurd rfl h6
    | cons x xs => simp
  have hceil : bytes_for_bits attestation_indices.length
      = (attestation_indices.length + 7) / 8 := by
    unfold bytes_for_bits
    omega
  unfold validate_attestation validate_after_slot_checks
  rw [if_neg (by omega), if_neg (by omega), if_neg (by omega),
    if_neg (by omega), h5]
  simp only
  by_cases hb : a.attester_bitfield.num_bytes
      = bytes_for_bits attestation_indices.length
  · rw [if_neg (not_not_intro hb)]
    constructor
    · intro hcontra
      exfalso
      rcases resolve_and_sign_outcomes a block_slot cycle_length
          known_parent_hashes with h | ⟨e, h⟩
      · rw [h] at hcontra
        exact Except.noConfusion hcontra
      · rw [h] at hcontra
        rcases fromParentHashesError_kinds e with h7 | h7 | h7 | h7 | h7 <;>
          rw [h7] at hcontra <;> simp at hcontra
    · intro hne
      exact absurd (hceil ▸ hb) hne
  · rw [if_pos hb]
    constructor
    · intro _
      rw [← hceil]
      exact hb
    · intro _
      rfl

/-- Witness for the amended C3 at a concrete input: committee of eight
members, two-byte bitfield where ceil(8/8) = 1 byte is required, so the
check fails with IncorrectBitField. -/
theorem C3_bitfield_length_witness :
    (validate_attestation
        ⟨10, 1, 0, [], [], ⟨[0, 0]⟩, []⟩ 10 5 0 [[], [], [], [], []]
        [((10, 1), [0, 1, 2, 3, 4, 5, 6, 7])]
      = Except.error AttestationValidationError.IncorrectBitField ↔
    (Bitfield.mk [0, 0]).num_bytes
      ≠ (([0, 1, 2, 3, 4, 5, 6, 7] : List Nat).length + 7) / 8) :=
  C3_bitfield_length ⟨10, 1, 0, [], [], ⟨[0, 0]⟩, []⟩ 10 5 0
    [[], [], [], [], []] [((10, 1), [0, 1, 2, 3, 4, 5, 6, 7])]
    [0, 1, 2, 3, 4, 5, 6, 7]
    (by decide) (by decide) (by decide) (by decide) (by decide) (by decide)

/-- Claim C10: when the attester map maps (record.slot, record.shard_id) to
the empty committee, bytes_for_bits 0 = 1, so a record whose bitfield has
zero bytes (the ceil(0/8) = 0 bytes a spec reader would expect) is rejected
with IncorrectBitField, provided the earlier checks pass. -/
theorem C10_empty_committee_bitfield (a : AttestationRecord)
    (block_slot cycle_length known_last_justified_slot : Nat)
    (known_parent_hashes : List Hash256) (attester_map : AttesterMap)
    (h1 : a.slot ≤ block_slot)
    (h2 : block_slot - (cycle_length + 1) ≤ a.slot)
    (h3 : a.justified_slot ≤ known_last_justified_slot)
    (h4 : a.oblique_parent_hashes.length ≤ cycle_length)
    (h5 : attester_map.lookup (a.slot, a.shard_id) = some [])
    (h6 : a.attester_bitfield.num_bytes = 0) :
    bytes_for_bits 0 = 1 ∧
    validate_attestation a block_slot cycle_length known_last_justified_slot
      known_parent_hashes attester_map
      = Except.error AttestationValidationError.IncorrectBitField := by
  refine ⟨by decide, ?_⟩
  unfold validate_attestation validate_after_slot_checks
  rw [if_neg (by omega), if_neg (by omega), if_neg (by omega),
    if_neg (by omega), h5]
  simp only
  rw [if_pos (by rw [h6]; decide)]

/-- Witness for C10 at a concrete input: empty committee, zero-byte
bitfield, all earlier checks passing. -/
theorem C10_empty_committee_bitfield_witness :
    bytes_for_bits 0 = 1 ∧
    validate_attestation ⟨10, 1, 0, [], [], ⟨[]⟩, []⟩ 10 5 0
        [[], [], [], [], []] [((10, 1), [])]
      = Except.error AttestationValidationError.IncorrectBitField :=
  C10_empty_committee_bitfield ⟨10, 1, 0, [], [], ⟨[]⟩, []⟩ 10 5 0
    [[], [], [], [], []] [((10, 1), [])]
    (by decide) (by decide) (by decide) (by decide) (by decide) (by decide)

/-- Claim C7: whenever the parent-hash resolver fails, validate_attestation
surfaces the same error kind unchanged through the From impl: the result is
exactly the image of the resolver error, and that image maps BadCurrentHashes
to BadCurrentHashes, BadObliqueHashes to BadObliqueHashes, SlotTooLow to
SlotTooLow, SlotTooHigh to SlotTooHigh and IntWrapping to IntWrapping. -/
theorem C7_resolver_error_propagation (a : AttestationRecord)
    (block_slot cycle_length known_last_justified_slot : Nat)
    (known_parent_hashes : List Hash256) (attester_map : AttesterMap)
    (attestation_indices : List Nat) (e : ParentHashesError)
    (h1 : a.slot ≤ block_slot)
    (h2 : block_slot - (cycle_length + 1) ≤ a.slot)
    (h3 : a.justified_slot ≤ known_last_justified_slot)
    (h4 : a.oblique_parent_hashes.length ≤ cycle_length)
    (h5 : attester_map.lookup (a.slot, a.shard_id) = some attestation_indices)
    (h6 : a.attester_bitfield.num_bytes
      = bytes_for_bits attestation_indices.length)
    (hres : attestation_parent_hashes cycle_length block_slot a.slot
        known_parent_hashes a.oblique_parent_hashes = Except.error e) :
    validate_attestation a block_slot cycle_length known_last_justified_slot
      known_parent_hashes attester_map
      = Except.error (fromParentHashesError e) ∧
    fromParentHashesError ParentHashesError.BadCurrentHashes
      = AttestationValidationError.BadCurrentHashes ∧
    fromParentHashesError ParentHashesError.BadObliqueHashes
      = AttestationValidationError.BadObliqueHashes ∧
    fromParentHashesError ParentHashesError.SlotTooLow
      = AttestationValidationError.SlotTooLow ∧
    fromParentHashesError ParentHashesError.SlotTooHigh
      = AttestationValidationError.SlotTooHigh ∧
    fromParentHashesError ParentHashesError.IntWrapping
      = AttestationValidationError.IntWrapping := by
  refine ⟨?_, rfl, rfl, rfl, rfl, rfl⟩
  unfold validate_attestation validate_after_slot_checks
  rw [if_neg (by omega), if_neg (by omega), if_neg (by omega),
    if_neg (by omega), h5]
  simp only
  rw [if_neg (not_not_intro h6)]
  unfold resolve_and_sign
  rw [hres]

/-- Witness for C7 at a concrete input: an empty known-parent-hash window
against cycle length 5 makes the resolver fail with BadCurrentHashes, and
validate_attestation surfaces BadCurrentHashes. -/
theorem C7_resolver_error_propagation_witness :
    validate_attestation ⟨10, 1, 0, [], [], ⟨[0]⟩, []⟩ 10 5 0 []
        [((10, 1), [0, 1, 2, 3, 4, 5, 6, 7])]
      = Except.error
          (fromParentHashesError ParentHashesError.BadCurrentHashes) ∧
    fromParentHashesError ParentHashesError.BadCurrentHashes
      = AttestationValidationError.BadCurrentHashes ∧
    fromParentHashesError ParentHashesError.BadObliqueHashes
      = AttestationValidationError.BadObliqueHashes ∧
    fromParentHashesError ParentHashesError.SlotTooLow
      = AttestationValidationError.SlotTooLow ∧
    fromParentHashesError ParentHashesError.SlotTooHigh
      = AttestationValidationError.SlotTooHigh ∧
    fromParentHashesError ParentHashesError.IntWrapping
      = AttestationValidationError.IntWrapping :=
  C7_resolver_error_propagation ⟨10, 1, 0, [], [], ⟨[0]⟩, []⟩ 10 5 0 []
    [((10, 1), [0, 1, 2, 3, 4, 5, 6, 7])] [0, 1, 2, 3, 4, 5, 6, 7]
    ParentHashesError.BadCurrentHashes
    (by decide) (by decide) (by decide) (by decide) (by decide) (by decide)
    rfl

/-- Claim C8: validate_attestation is deterministic; two invocations with
identical arguments (same record, block slot, cycle length, known last
justified slot, known parent hashes and attester map) yield equal results,
so every rejection is reproduced on re-invocation.  The embedded pipeline is
a pure function of exactly these arguments, as is the source: it performs no
input mutation and no effect. -/
theorem C8_deterministic (a₁ a₂ : AttestationRecord)
    (block_slot₁ block_slot₂ cycle_length₁ cycle_length₂ : Nat)
    (known_last_justified_slot₁ known_last_justified_slot₂ : Nat)
    (known_parent_hashes₁ known_parent_hashes₂ : List Hash256)
    (attester_map₁ attester_map₂ : AttesterMap)
    (ha : a₁ = a₂) (hbs : block_slot₁ = block_slot₂)
    (hcl : cycle_length₁ = cycle_length₂)
    (hkj : known_last_justified_slot₁ = known_last_justified_slot₂)
    (hkp : known_parent_hashes₁ = known_parent_hashes₂)
    (ham : attester_map₁ = attester_map₂) :
    validate_attestation a₁ block_slot₁ cycle_length₁
      known_last_justified_slot₁ known_parent_hashes₁ attester_map₁
      = validate_attestation a₂ block_slot₂ cycle_length₂
          known_last_justified_slot₂ known_parent_hashes₂ attester_map₂ := by
  rw [ha, hbs, hcl, hkj, hkp, ham]

/-- Witness for C8 at a concrete input: re-invoking on the same rejected
record yields the same result. -/
theorem C8_deterministic_witness :
    validate_attestation ⟨11, 1, 0, [], [], ⟨[0]⟩, []⟩ 10 5 0 [] []
      = validate_attestation ⟨11, 1, 0, [], [], ⟨[0]⟩, []⟩ 10 5 0 [] [] :=
  C8_deterministic ⟨11, 1, 0, [], [], ⟨[0]⟩, []⟩ ⟨11, 1, 0, [], [], ⟨[0]⟩, []⟩
    10 10 5 5 0 0 [] [] [] [] rfl rfl rfl rfl rfl rfl

/-- Claim C9: for every input, validate_attestation never returns Ok(true)
and never returns the NoSignatures, NonZeroTrailingBits or
AggregateSignatureFail errors, because the pipeline stops after building the
signed message: any Ok result carries false. -/
theorem C9_pipeline_stops_early (a : AttestationRecord)
    (block_slot cycle_length known_last_justified_slot : Nat)
    (known_parent_hashes : List Hash256) (attester_map : AttesterMap) :
    validate_attestation a block_slot cycle_length known_last_justified_slot
      known_parent_hashes attester_map ≠ Except.ok true ∧
    validate_attestation a block_slot cycle_length known_last_justified_slot
      known_parent_hashes attester_map
      ≠ Except.error AttestationValidationError.NoSignatures ∧
    validate_attestation a block_slot cycle_length known_last_justified_slot
      known_parent_hashes attester_map
      ≠ Except.error AttestationValidationError.NonZeroTrailingBits ∧
    validate_attestation a block_slot cycle_length known_last_justified_slot
      known_parent_hashes attester_map
      ≠ Except.error AttestationValidationError.AggregateSignatureFail := by
  rcases validate_attestation_outcomes a block_slot cycle_length
      known_last_justified_slot known_parent_hashes attester_map with
    h | ⟨err, h, herr⟩
  · rw [h]
    refine ⟨by simp, by simp, by simp, by simp⟩
  · rw [h]
    rcases herr with h9 | h9 | h9 | h9 | h9 | h9 | h9 | h9 | h9 <;>
      rw [h9] <;> refine ⟨by simp, by simp, by simp, by simp⟩

/-- Claim C1 (divergence witness): on a concrete input that passes every
structural check (slot 10 at block slot 10, cycle length 5, justified slot
0, no oblique hashes, committee of eight members, one-byte bitfield with a
bit set, a five-entry known-parent-hash window accepted by the resolver),
validate_attestation returns Ok(false), the not-accepted marker: the source
stops after building the signed message and never verifies the aggregate
signature, so no input can reach the accepted marker the claim requires. -/
theorem C1_never_reaches_accept :
    validate_attestation ⟨10, 1, 0, [], [], ⟨[255]⟩, [1, 2, 3]⟩ 10 5 0
        [[], [], [], [], []] [((10, 1), [0, 1, 2, 3, 4, 5, 6, 7])]
      = Except.ok false := by
  rfl

/-- Claim C2 (divergence witness): on a concrete input whose
attester_bitfield is all-zero (one zero byte for a committee of eight) and
which passes every earlier check, validate_attestation returns Ok(false)
rather than the NoSignatures error the claim requires: the source never
invokes the public-key aggregation stage. -/
theorem C2_no_signatures_unreachable :
    validate_attestation ⟨10, 1, 0, [], [], ⟨[0]⟩, []⟩ 10 5 0
        [[], [], [], [], []] [((10, 1), [0, 1, 2, 3, 4, 5, 6, 7])]
      = Except.ok false ∧
    validate_attestation ⟨10, 1, 0, [], [], ⟨[0]⟩, []⟩ 10 5 0
        [[], [], [], [], []] [((10, 1), [0, 1, 2, 3, 4, 5, 6, 7])]
      ≠ Except.error AttestationValidationError.NoSignatures := by
  constructor
  · rfl
  · intro h
    exact Except.noConfusion h
